import Mathlib

/-!
Verification development for the insurance OIDC demo client
(`src/ui/InsuranceDemoApp.tsx`, `src/ui/ChatPanel.tsx`, `src/api.ts`).

The shallow embedding below translates the authentication core of the
React component into pure Lean functions:

* browser `sessionStorage` is a map `String → Option SVal`; the JSON
  (de)serialization layer of `saveSession`/`loadSession` is treated as a
  transparent embedding of values (it is modelled explicitly, with its
  failure modes, in the `JsonStorage` namespace);
* React state (`tokens`, `error`, the OTP fields, …) is a record `App`;
  an event handler is a function `App → … → App × List NetCall`, where
  the `NetCall` list records the network requests the handler issued, in
  order;
* `fetch` responses are oracles passed as explicit arguments
  (`TokenResponse`, `SubmitOracles`, `VehiclesResponse`);
* JavaScript truthiness (`||` chains, `!x` guards) is modelled by
  explicit `truthy…` helpers on `Option String` / `SVal`.
-/

/-- A JSON-serializable value held in `sessionStorage`: either a string
(state tokens, PKCE verifiers, the used-code marker `"1"`) or a token
object (the value stored under the `"tokens"` key). -/
inductive SVal where
  | s (v : String)
  | tok (access_token accessToken token id_token refresh_token _client_id : Option String)
  deriving DecidableEq, Repr

/-- A parsed token-endpoint JSON body, as read by the component:
the bearer-token candidate fields probed by the code, plus the
`_client_id` tag the component attaches after an exchange. -/
structure TokenJson where
  access_token : Option String := none
  accessToken : Option String := none
  token : Option String := none
  id_token : Option String := none
  refresh_token : Option String := none
  _client_id : Option String := none
  deriving DecidableEq, Repr

/-- Embed a token object into a stored `sessionStorage` value. -/
def TokenJson.toSVal (t : TokenJson) : SVal :=
  SVal.tok t.access_token t.accessToken t.token t.id_token t.refresh_token t._client_id

/-- JavaScript truthiness of a stored value: the empty string is falsy,
all other strings and all objects are truthy. -/
def SVal.truthy : SVal → Bool
  | .s v => v != ""
  | .tok _ _ _ _ _ _ => true

/-- Truthiness of a possibly-absent stored value (`null` is falsy). -/
def truthyO : Option SVal → Bool
  | none => false
  | some v => v.truthy

/-- Truthiness of a possibly-absent string (`null`/`undefined` and `""`
are falsy). -/
def truthyStrO : Option String → Bool
  | none => false
  | some s => s != ""

/-- A JavaScript `a || b || … || null` chain over string-valued
expressions: the first truthy element, else `null`. -/
def firstTruthyStr : List (Option String) → Option String
  | [] => none
  | a :: rest => if truthyStrO a then a else firstTruthyStr rest

/-- String coercion applied by `URLSearchParams.set` to a stored value. -/
def SVal.asParam : SVal → String
  | .s v => v
  | .tok _ _ _ _ _ _ => "object Object"

/-- The `sessionStorage` contents, as a key/value map. -/
def Store : Type := String → Option SVal

/-- `sessionStorage.getItem` (and, with JSON decoding transparent,
`loadSession` with its `null` fallback). -/
def getItem (st : Store) (k : String) : Option SVal := st k

/-- `sessionStorage.setItem` (and, with JSON encoding transparent,
`saveSession`). -/
def setItem (st : Store) (k : String) (v : SVal) : Store :=
  fun k2 => if k2 = k then some v else st k2

/-- `sessionStorage.removeItem`. -/
def removeItem (st : Store) (k : String) : Store :=
  fun k2 => if k2 = k then none else st k2

/-- Modelled from the spec: the OAuth client id for primary login,
`OIDC_CONFIG.CLIENT_ID` in `src/config.ts` (the config module itself is
deployment configuration absent from `src/`; only its field names are
contractual). -/
def CLIENT_ID : String := "client-login"

/-- Modelled from the spec: the step-up (email-OTP) OAuth client id,
`OIDC_CONFIG.CLIENT_ID2` in `src/config.ts`. -/
def CLIENT_ID2 : String := "client-stepup"

/-- Modelled from the spec: `OIDC_CONFIG.REDIRECT_URI`. -/
def REDIRECT_URI : String := "http://localhost:5173"

/-- The well-known default OTP submission endpoint hard-coded in
`submitOtp` (`InsuranceDemoApp.tsx` line 272). -/
def DEFAULT_AUTHN_URL : String := "https://localhost:9444/oauth2/authn"

/-- A network request issued by the component, with the data the claims
talk about: client identity, code, optional PKCE verifier, bearer token. -/
inductive NetCall where
  | tokenExchange (clientId code : String) (code_verifier : Option String) (redirect_uri : String)
  | authn (url flowId authenticatorId otpCode : String)
  | buyInsurance (bearer vehicleId quoteId : String)
  deriving DecidableEq, Repr

/-- True for `grant_type=authorization_code` token-endpoint requests. -/
def NetCall.isTokenExchange : NetCall → Bool
  | .tokenExchange _ _ _ _ => true
  | _ => false

/-- The token-exchange requests among a handler's network calls. -/
def tokenCallsOf (l : List NetCall) : List NetCall := l.filter NetCall.isTokenExchange

/-- Number of token-exchange network calls in a call trace. -/
def tokenCallCount (l : List NetCall) : Nat := (tokenCallsOf l).length

/-- A token-endpoint `fetch` response oracle: HTTP status, the result of
`res.json().catch(() => null)`, and the result of `res.text()`. -/
structure TokenResponse where
  status : Nat
  jsonBody : Option TokenJson := none
  textBody : String := ""
  deriving DecidableEq, Repr

/-- `Response.ok`: status in the 2xx range. -/
def respOk (r : TokenResponse) : Bool := decide (200 ≤ r.status ∧ r.status < 300)

/-- Parsed shape of a step-up authorize (`response_mode=direct`)
response, restricted to the fields the component probes.  Each field the
code reads with optional chaining is an `Option`; nested authenticator
lists keep only the two id fields that are probed. -/
structure AuthEntry where
  authenticatorId : Option String := none
  id : Option String := none
  deriving DecidableEq, Repr

/-- A `links` array entry (only `href` is read). -/
structure LinkEntry where
  href : Option String := none
  deriving DecidableEq, Repr

/-- A raw (or normalized) challenge response held in `otpResponse`. -/
structure RawChallenge where
  flowId : Option String := none
  flowID : Option String := none
  sessionDataKey : Option String := none
  sessionDataKeyConsent : Option String := none
  sessionState : Option String := none
  nextStepAuthenticators : List AuthEntry := []
  authenticatorId : Option String := none
  authenticators : List AuthEntry := []
  authenticateAuthenticators : List AuthEntry := []
  stepInfoOptions : List AuthEntry := []
  links : List LinkEntry := []
  authnHref : Option String := none
  deriving DecidableEq, Repr

/-- The flow-identifier probing chain
(`res?.flowId || res?.flowID || res?.sessionDataKey ||
res?.sessionDataKeyConsent || res?.sessionState || null`), identical in
`startEmailOtp` and `submitOtp`. -/
def flowIdOf (r : RawChallenge) : Option String :=
  firstTruthyStr [r.flowId, r.flowID, r.sessionDataKey, r.sessionDataKeyConsent, r.sessionState]

/-- The authenticator-identifier probing chain of `startEmailOtp`
(`nextStep` variant first, direct `authenticatorId` second). -/
def authenticatorIdOfBegin (r : RawChallenge) : Option String :=
  firstTruthyStr
    [ (r.nextStepAuthenticators.head?).bind AuthEntry.authenticatorId
    , r.authenticatorId
    , (r.authenticators.head?).bind AuthEntry.authenticatorId
    , (r.authenticators.head?).bind AuthEntry.id
    , (r.authenticateAuthenticators.head?).bind AuthEntry.id
    , (r.stepInfoOptions.head?).bind AuthEntry.authenticatorId
    , (r.stepInfoOptions.head?).bind AuthEntry.id ]

/-- The authenticator-identifier probing chain of `submitOtp` (direct
`authenticatorId` first, `nextStep` variant second; same field set). -/
def authenticatorIdOfSubmit (r : RawChallenge) : Option String :=
  firstTruthyStr
    [ r.authenticatorId
    , (r.nextStepAuthenticators.head?).bind AuthEntry.authenticatorId
    , (r.authenticators.head?).bind AuthEntry.authenticatorId
    , (r.authenticators.head?).bind AuthEntry.id
    , (r.authenticateAuthenticators.head?).bind AuthEntry.id
    , (r.stepInfoOptions.head?).bind AuthEntry.authenticatorId
    , (r.stepInfoOptions.head?).bind AuthEntry.id ]

/-- The `/authn/i` regex test applied to a link's `href`. -/
def linkMatchesAuthn (l : LinkEntry) : Bool :=
  match l.href with
  | none => false
  | some h => (h.toLower.splitOn "authn").length > 1

/-- The submission-URL probing chain
(`res?.links?.[0]?.href || res?.links?.find?.(l => /authn/i.test(l?.href))?.href || null`). -/
def authnHrefOf (r : RawChallenge) : Option String :=
  firstTruthyStr
    [ (r.links.head?).bind LinkEntry.href
    , (r.links.find? linkMatchesAuthn).bind LinkEntry.href ]

/-- `startEmailOtp`'s normalized challenge:
`{ ...res, flowId, authenticatorId, authnHref }`. -/
def normalizeChallenge (res : RawChallenge) : RawChallenge :=
  { res with
    flowId := flowIdOf res
    authenticatorId := authenticatorIdOfBegin res
    authnHref := authnHrefOf res }

/-- Parsed `authData` object of an OTP-verification response. -/
structure AuthData where
  code : Option String := none
  deriving DecidableEq, Repr

/-- Parsed OTP-verification (`/oauth2/authn`) response body, restricted
to the fields the component reads. -/
structure VerifyJson where
  flowStatus : Option String := none
  authData : Option AuthData := none
  deriving DecidableEq, Repr

/-- The value held in the `otpResponse` state: a (normalized) challenge
response after `startEmailOtp`, or a verification response after
`submitOtp` stores the `/oauth2/authn` body. -/
inductive OtpResp where
  | challenge (c : RawChallenge)
  | verify (v : VerifyJson)
  deriving DecidableEq, Repr

/-- `submitOtp`'s flow-identifier probe applied to the current
`otpResponse` value (a verification response has none of the fields). -/
def flowIdOfSubmit : OtpResp → Option String
  | .challenge c => flowIdOf c
  | .verify _ => none

/-- `submitOtp`'s authenticator-identifier probe applied to the current
`otpResponse` value. -/
def authIdOfSubmit : OtpResp → Option String
  | .challenge c => authenticatorIdOfSubmit c
  | .verify _ => none

/-- `otpResponse?.authnHref` as read by `submitOtp`. -/
def authnHrefOfSubmit : OtpResp → Option String
  | .challenge c => c.authnHref
  | .verify _ => none

/-- Insurance status sub-record of a vehicle (`src/api.ts`). -/
structure InsuranceStatus where
  isInsured : Bool
  policyId : Option String := none
  insuredUntil : Option String := none
  deriving DecidableEq, Repr

/-- Available-actions sub-record of a vehicle (`src/api.ts`). -/
structure ActionsAvailable where
  canGetQuote : Bool
  canBuyInsurance : Bool
  canViewPolicy : Bool
  deriving DecidableEq, Repr

/-- The `Vehicle` interface of `src/api.ts`. -/
structure Vehicle where
  vehicleId : String
  make : String
  model : String
  registrationNumber : String
  type : String
  manufactureYear : Nat
  estimatedValue : Nat
  currency : String
  insuranceStatus : InsuranceStatus
  actionsAvailable : ActionsAvailable
  deriving DecidableEq, Repr

/-- The `Quote` interface of `src/api.ts`. -/
structure Quote where
  id : String
  vehicleId : String
  premium : Nat
  coverage : String
  validUntil : String
  deriving DecidableEq, Repr

/-- Parsed body of the buy-insurance response, restricted to the fields
`submitOtp` reads. -/
structure PolicyJson where
  policyNumber : Option String := none
  id : Option String := none
  endDate : Option String := none
  deriving DecidableEq, Repr

/-- The component's React state, as captured by an event-handler closure
at render time, together with the `sessionStorage` contents and the
`exchangingRef` re-entrancy flag. -/
structure App where
  store : Store := fun _ => none
  exchanging : Bool := false
  tokens : Option TokenJson := none
  error : String := ""
  otpVisible : Bool := false
  otpValue : String := ""
  otpRequesting : Bool := false
  otpError : Option String := none
  otpResponse : Option OtpResp := none
  purchaseSuccess : Bool := false
  vehicles : Option (List Vehicle) := none
  selectedVehicle : Option Vehicle := none
  quote : Option Quote := none

/-- The used-code marker key `pkce_code_used:${state}:${code}`. -/
def usedCodeKey (state code : String) : String :=
  "pkce_code_used:" ++ state ++ ":" ++ code

/-- The synchronous prefix of the redirect-landing `useEffect`
(`InsuranceDemoApp.tsx` lines 405-418, identically `ChatPanel.tsx`):
reads `code`/`state` from the URL, validates `state` against the stored
pending state, checks the durable used-code marker and the in-flight
flag, and - if all guards pass - sets the in-flight flag and writes the
marker, returning the pending `(code, state)` pair for the asynchronous
part.  It issues no network call. -/
def redirectSync (app : App) (codeQ stateQ : Option String) : App × Option (String × String) :=
  match codeQ, stateQ with
  | some code, some state =>
    if code = "" ∨ state = "" then (app, none)
    else if getItem app.store "pkce_state" ≠ some (SVal.s state) then (app, none)
    else if truthyO (getItem app.store (usedCodeKey state code)) || app.exchanging then (app, none)
    else
      ({ app with
          exchanging := true
          store := setItem app.store (usedCodeKey state code) (SVal.s "1") },
       some (code, state))
  | _, _ => (app, none)

/-- `exchangeCodeForTokens` (`InsuranceDemoApp.tsx` lines 430-466):
looks up the PKCE verifier and client id stored for `state`, POSTs the
authorization-code grant, and on success stores the token set (tagged
with `_client_id`) and removes the per-state verifier and client
entries.  On a non-2xx response or a non-JSON body it only sets the
error message.  The returned list records the token request, if one was
made. -/
def exchangeCodeForTokens (app : App) (resp : TokenResponse) (code : String)
    (stateO : Option String) : App × List NetCall :=
  let keyedVerifier : Option SVal :=
    match stateO with
    | some s => if s ≠ "" then getItem app.store ("pkce_verifier:" ++ s) else none
    | none => none
  let codeVerifier : Option SVal :=
    if truthyO keyedVerifier then keyedVerifier else getItem app.store "pkce_verifier"
  let keyedClient : Option SVal :=
    match stateO with
    | some s => if s ≠ "" then getItem app.store ("pkce_client:" ++ s) else none
    | none => none
  let clientIdUsed : String :=
    if truthyO keyedClient then (keyedClient.getD (SVal.s CLIENT_ID)).asParam else CLIENT_ID
  if ¬ truthyO codeVerifier then
    ({ app with error := "Missing PKCE verifier. Please sign in again." }, [])
  else
    let call := NetCall.tokenExchange clientIdUsed code
      (some ((codeVerifier.getD (SVal.s "")).asParam)) REDIRECT_URI
    if respOk resp then
      match resp.jsonBody with
      | none => ({ app with error := "Token response not JSON." }, [call])
      | some j =>
        let j2 := { j with _client_id := some clientIdUsed }
        let store2 := setItem app.store "tokens" j2.toSVal
        let store3 :=
          match stateO with
          | some s =>
            if s ≠ "" then
              removeItem (removeItem store2 ("pkce_verifier:" ++ s)) ("pkce_client:" ++ s)
            else store2
          | none => store2
        ({ app with tokens := some j2, store := store3 }, [call])
    else
      ({ app with
          error := "Token exchange failed (" ++ toString resp.status ++ "). " ++
            (if resp.textBody = "" then "See Network tab." else resp.textBody) },
       [call])

/-- The asynchronous part of the redirect-landing effect: awaits
`exchangeCodeForTokens`, strips the URL parameters (not part of the
modelled state), and clears the in-flight flag. -/
def redirectAsync (app : App) (resp : TokenResponse) (code state : String) : App × List NetCall :=
  let r := exchangeCodeForTokens app resp code (some state)
  ({ r.1 with exchanging := false }, r.2)

/-- The whole redirect-landing handler: synchronous guard phase followed
by the asynchronous exchange phase. -/
def handleRedirectLanding (app : App) (resp : TokenResponse)
    (codeQ stateQ : Option String) : App × List NetCall :=
  match redirectSync app codeQ stateQ with
  | (app1, none) => (app1, [])
  | (app1, some (code, state)) => redirectAsync app1 resp code state

/-- `ok` for a bare status number (used by the `fetch` responses whose
oracles carry only a status). -/
def okStatus (n : Nat) : Bool := decide (200 ≤ n ∧ n < 300)

/-- The response oracles consumed by one `submitOtp` invocation:
the `/oauth2/authn` verification response, the optional token-endpoint
response, and the optional buy-insurance response. -/
structure SubmitOracles where
  verifyStatus : Nat := 200
  verifyJson : Option VerifyJson := none
  verifyText : String := ""
  tokenResp : TokenResponse := { status := 200 }
  buyStatus : Nat := 200
  buyJson : Option PolicyJson := none
  buyText : String := ""
  deriving Repr

/-- `json?.authData?.code` of an OTP-verification response. -/
def authCodeOf (j : Option VerifyJson) : Option String :=
  (j.bind VerifyJson.authData).bind AuthData.code

/-- The guard of the post-OTP token exchange:
`json?.flowStatus === "SUCCESS_COMPLETED" && authCode` (truthy). -/
def doExchangeB (j : Option VerifyJson) : Bool :=
  ((j.bind VerifyJson.flowStatus) == some "SUCCESS_COMPLETED") && truthyStrO (authCodeOf j)

/-- A stand-in for `JSON.stringify` applied to a parsed verification
response; only used inside an error message. -/
def renderVerifyJson (v : VerifyJson) : String :=
  "flowStatus=" ++ v.flowStatus.getD "null" ++ ",authData.code=" ++ (authCodeOf (some v)).getD "null"

/-- Result of the `try` block of `submitOtp`: the state after its writes,
the network calls it made, and the message of the exception it threw, if
any (the surrounding `catch` turns it into `otpError`). -/
structure TryResult where
  app : App
  calls : List NetCall
  thrown : Option String := none

/-- The tail of `submitOtp`'s `try` block (`InsuranceDemoApp.tsx` lines
321-395): hides the OTP input, derives the bearer token from the
closure-captured `tokens` state (`app0`), and issues the buy-insurance
request, updating the vehicle list on success.  `cur` is the state
accumulated so far in this invocation (it may already hold a freshly
exchanged token set, which this code does not read). -/
def buyInsurancePhase (app0 : App) (cur : App) (calls : List NetCall)
    (o : SubmitOracles) : TryResult :=
  let cur1 := { cur with otpVisible := false, otpValue := "" }
  match app0.tokens with
  | none =>
    { app := cur1, calls := calls, thrown := some "Cannot read properties of null" }
  | some t0 =>
    match firstTruthyStr [t0.access_token, t0.accessToken, t0.token, t0.id_token] with
    | none =>
      { app := { cur1 with error := "Missing bearer token in stored tokens." }, calls := calls }
    | some bearer =>
      match app0.selectedVehicle, app0.quote with
      | some sv, some q =>
        let call := NetCall.buyInsurance bearer sv.vehicleId q.id
        if okStatus o.buyStatus then
          match o.buyJson with
          | none =>
            { app := cur1, calls := calls ++ [call], thrown := some "Policy response was not JSON" }
          | some pj =>
            let updatedVehicle : Vehicle :=
              { sv with
                insuranceStatus :=
                  { isInsured := true
                  , policyId := firstTruthyStr [pj.policyNumber, pj.id]
                  , insuredUntil := pj.endDate }
                actionsAvailable :=
                  { sv.actionsAvailable with canGetQuote := false, canViewPolicy := true } }
            let updatedVehicles := (app0.vehicles.getD []).map
              (fun v => if v.vehicleId = sv.vehicleId then updatedVehicle else v)
            { app := { cur1 with
                vehicles := some updatedVehicles
                selectedVehicle := some updatedVehicle
                purchaseSuccess := true
                quote := none
                otpVisible := false
                otpValue := "" }
            , calls := calls ++ [call] }
        else
          { app := cur1, calls := calls ++ [call]
          , thrown := some ("Insurance purchase failed (" ++ toString o.buyStatus ++ "). " ++ o.buyText) }
      | _, _ =>
        { app := { cur1 with error := "Missing vehicle or quote information" }, calls := calls }

/-- The `try` block of `submitOtp` (`InsuranceDemoApp.tsx` lines
261-396): POSTs the OTP to the submission URL; on a 2xx response stores
the body in `otpResponse` and, when `flowStatus` is `SUCCESS_COMPLETED`
and an embedded code is present, performs exactly one token exchange
with `CLIENT_ID2` (no PKCE verifier) before the buy-insurance phase. -/
def submitOtpTry (app0 : App) (o : SubmitOracles) (oresp : OtpResp)
    (flowId authId : String) : TryResult :=
  let url := match authnHrefOfSubmit oresp with
    | some h => if h ≠ "" then h else DEFAULT_AUTHN_URL
    | none => DEFAULT_AUTHN_URL
  let callV := NetCall.authn url flowId authId app0.otpValue
  if okStatus o.verifyStatus then
    let app1 := { app0 with otpResponse := o.verifyJson.map OtpResp.verify }
    if doExchangeB o.verifyJson then
      let code := (authCodeOf o.verifyJson).getD ""
      let callT := NetCall.tokenExchange CLIENT_ID2 code none REDIRECT_URI
      if respOk o.tokenResp then
        match o.tokenResp.jsonBody with
        | none =>
          { app := app1, calls := [callV, callT]
          , thrown := some ("Post-OTP token exchange error: " ++ "Token response (CLIENT_ID2) not JSON.") }
        | some tj =>
          let tj2 := { tj with _client_id := some CLIENT_ID2 }
          let app2 := { app1 with tokens := some tj2, store := setItem app1.store "tokens" tj2.toSVal }
          buyInsurancePhase app0 app2 [callV, callT] o
      else
        { app := app1, calls := [callV, callT]
        , thrown := some ("Post-OTP token exchange error: " ++ "Token exchange (CLIENT_ID2) failed ("
            ++ toString o.tokenResp.status ++ "). " ++ o.tokenResp.textBody) }
    else
      buyInsurancePhase app0 app1 [callV] o
  else
    { app := app0, calls := [callV]
    , thrown := some ("OTP verify failed (" ++ toString o.verifyStatus ++ "). " ++
        (match o.verifyJson with | some j => renderVerifyJson j | none => o.verifyText)) }

/-- `submitOtp` (`InsuranceDemoApp.tsx` lines 234-402): the guard
cascade (OTP entered, authorize response present, flow and authenticator
identifiers locatable), then the `try` block, with `catch` writing
`otpError` and `finally` clearing `otpRequesting`. -/
def submitOtp (app : App) (o : SubmitOracles) : App × List NetCall :=
  let app := { app with otpError := none }
  if app.otpValue = "" then ({ app with otpError := some "Enter OTP" }, [])
  else
    match app.otpResponse with
    | none => ({ app with otpError := some "Missing authorize response (no flow data)" }, [])
    | some oresp =>
      match flowIdOfSubmit oresp with
      | none => ({ app with otpError := some "Unable to locate flowId in authorize response" }, [])
      | some flowId =>
        match authIdOfSubmit oresp with
        | none =>
          ({ app with otpError := some "Unable to locate authenticatorId in authorize response" }, [])
        | some authId =>
          let appR := { app with otpRequesting := true }
          let r := submitOtpTry appR o oresp flowId authId
          let appC := match r.thrown with
            | none => r.app
            | some m => { r.app with otpError := some m }
          ({ appC with otpRequesting := false }, r.calls)

/-- The success continuation of `startEmailOtp` (`InsuranceDemoApp.tsx`
lines 195-232) once `emailOtpFlow` resolved with body `res`: normalizes
the response and unconditionally presents the OTP entry step. -/
def startEmailOtpOk (app : App) (res : RawChallenge) : App :=
  { app with
    otpError := none
    otpResponse := some (OtpResp.challenge (normalizeChallenge res))
    otpVisible := true
    otpRequesting := false }

/-- The failure continuation of `startEmailOtp` when `emailOtpFlow`
rejected (non-2xx step-up authorize response). -/
def startEmailOtpErr (app : App) (status : Nat) (body : String) : App :=
  { app with
    otpError := some ("emailOtpFlow failed: " ++ toString status ++ " " ++ body)
    otpResponse := none
    otpVisible := false
    otpRequesting := false }

/-- A field of the parsed `getVehicles` body that the code probes with
`Array.isArray`: an array (of whatever the backend sent, cast to
`Vehicle[]` unchecked) or any non-array value. -/
inductive VehiclesField where
  | varr (vs : List Vehicle)
  | vother
  deriving DecidableEq, Repr

/-- The parsed `getVehicles` response body, classified the way
`fetchVehicles` probes it: a top-level array, an object with optional
`vehicles` / `list` fields, or any other JSON value (including the falsy
ones caught by `if (!data)`). -/
inductive VehiclesJson where
  | jarr (vs : List Vehicle)
  | jobj (vehicles : Option VehiclesField) (list : Option VehiclesField)
  | jother
  deriving DecidableEq, Repr

/-- The `getVehicles` `fetch` response oracle: HTTP status and the
result of `res.json().catch(() => null)`. -/
structure VehiclesResponse where
  status : Nat
  jsonBody : Option VehiclesJson := none
  deriving DecidableEq, Repr

/-- The hard-coded fallback vehicle list of `src/api.ts` (lines 43-102). -/
def mockVehicles : List Vehicle :=
  [ { vehicleId := "VEH-001"
    , make := "Toyota"
    , model := "Corolla"
    , registrationNumber := "WP-CA-4521"
    , type := "CAR"
    , manufactureYear := 2022
    , estimatedValue := 4500000
    , currency := "LKR"
    , insuranceStatus :=
        { isInsured := true, policyId := some "POL-2025-000874", insuredUntil := some "2025-12-31" }
    , actionsAvailable := { canGetQuote := false, canBuyInsurance := false, canViewPolicy := true } }
  , { vehicleId := "VEH-002"
    , make := "Honda"
    , model := "Civic"
    , registrationNumber := "WP-CB-7834"
    , type := "CAR"
    , manufactureYear := 2021
    , estimatedValue := 3800000
    , currency := "LKR"
    , insuranceStatus :=
        { isInsured := true, policyId := some "POL-2025-000874", insuredUntil := some "2025-12-31" }
    , actionsAvailable := { canGetQuote := false, canBuyInsurance := false, canViewPolicy := true } }
  , { vehicleId := "VEH-003"
    , make := "Toyota"
    , model := "Hiace"
    , registrationNumber := "WP-KA-9912"
    , type := "VAN"
    , manufactureYear := 2020
    , estimatedValue := 5200000
    , currency := "LKR"
    , insuranceStatus := { isInsured := false }
    , actionsAvailable := { canGetQuote := true, canBuyInsurance := false, canViewPolicy := false } } ]

/-- `fetchVehicles` (`src/api.ts` lines 104-128): resolves with the mock
list on a 204, on any non-OK status, on a non-JSON body, and on any body
that is neither an array nor an object with a `vehicles` or `list`
array; otherwise returns the first array found, in that probing order. -/
def fetchVehicles (r : VehiclesResponse) : List Vehicle :=
  if r.status = 204 then mockVehicles
  else if ¬ okStatus r.status then mockVehicles
  else
    match r.jsonBody with
    | none => mockVehicles
    | some (.jarr vs) => vs
    | some (.jobj vf lf) =>
      match vf with
      | some (.varr vs) => vs
      | _ =>
        match lf with
        | some (.varr vs) => vs
        | _ => mockVehicles
    | some .jother => mockVehicles

/-- 32-bit modular addition. -/
def add32 (a b : Nat) : Nat := (a + b) % 4294967296

/-- 32-bit right rotation (inputs are kept below 2^32). -/
def rotr32 (n x : Nat) : Nat := ((x >>> n) ||| (x <<< (32 - n))) % 4294967296

/-- SHA-256 big sigma-0. -/
def bSig0 (x : Nat) : Nat := rotr32 2 x ^^^ rotr32 13 x ^^^ rotr32 22 x

/-- SHA-256 big sigma-1. -/
def bSig1 (x : Nat) : Nat := rotr32 6 x ^^^ rotr32 11 x ^^^ rotr32 25 x

/-- SHA-256 small sigma-0. -/
def sSig0 (x : Nat) : Nat := rotr32 7 x ^^^ rotr32 18 x ^^^ (x >>> 3)

/-- SHA-256 small sigma-1. -/
def sSig1 (x : Nat) : Nat := rotr32 17 x ^^^ rotr32 19 x ^^^ (x >>> 10)

/-- SHA-256 choice function. -/
def chF (x y z : Nat) : Nat := (x &&& y) ^^^ ((x ^^^ 4294967295) &&& z)

/-- SHA-256 majority function. -/
def majF (x y z : Nat) : Nat := (x &&& y) ^^^ (x &&& z) ^^^ (y &&& z)

/-- The 64 SHA-256 round constants of FIPS 180-4, written in decimal. -/
def K256 : List Nat :=
  [ 1116352408, 1899447441, 3049323471, 3921009573, 961987163,
    1508970993, 2453635748, 2870763221, 3624381080, 310598401,
    607225278, 1426881987, 1925078388, 2162078206, 2614888103,
    3248222580, 3835390401, 4022224774, 264347078, 604807628,
    770255983, 1249150122, 1555081692, 1996064986, 2554220882,
    2821834349, 2952996808, 3210313671, 3336571891, 3584528711,
    113926993, 338241895, 666307205, 773529912, 1294757372,
    1396182291, 1695183700, 1986661051, 2177026350, 2456956037,
    2730485921, 2820302411, 3259730800, 3345764771, 3516065817,
    3600352804, 4094571909, 275423344, 430227734, 506948616,
    659060556, 883997877, 958139571, 1322822218, 1537002063,
    1747873779, 1955562222, 2024104815, 2227730452, 2361852424,
    2428436474, 2756734187, 3204031479, 3329325298 ]

/-- The eight SHA-256 initial hash words of FIPS 180-4, in decimal. -/
def H256 : List Nat :=
  [ 1779033703, 3144134277, 1013904242, 2773480762,
    1359893119, 2600822924, 528734635, 1541459225 ]

/-- Big-endian 4-byte encoding of a 32-bit word. -/
def be32 (x : Nat) : List Nat := [x / 16777216 % 256, x / 65536 % 256, x / 256 % 256, x % 256]

/-- Big-endian 8-byte encoding of a 64-bit length field. -/
def be64 (x : Nat) : List Nat := be32 (x / 4294967296) ++ be32 (x % 4294967296)

/-- SHA-256 message padding: `0x80`, zeros to 56 mod 64, then the
bit length. -/
def sha256Pad (msg : List Nat) : List Nat :=
  let L := msg.length
  msg ++ 128 :: List.replicate ((119 - L % 64) % 64) 0 ++ be64 (8 * L)

/-- Big-endian words from a byte list (groups of 4). -/
def beWords : List Nat → List Nat
  | a :: b :: c :: d :: rest => (a * 16777216 + b * 65536 + c * 256 + d) :: beWords rest
  | _ => []

/-- SHA-256 message-schedule extension from 16 to 64 words. -/
def extendW (w : Array Nat) : Array Nat :=
  (List.range 48).foldl
    (fun w i =>
      w.push (add32 (add32 (sSig1 (w.getD (i + 14) 0)) (w.getD (i + 9) 0))
                    (add32 (sSig0 (w.getD (i + 1) 0)) (w.getD i 0))))
    w

/-- One SHA-256 compression round. -/
def compressStep (w : Array Nat) (s : Array Nat) (i : Nat) : Array Nat :=
  let a := s.getD 0 0
  let b := s.getD 1 0
  let c := s.getD 2 0
  let d := s.getD 3 0
  let e := s.getD 4 0
  let f := s.getD 5 0
  let g := s.getD 6 0
  let hh := s.getD 7 0
  let t1 := add32 hh (add32 (bSig1 e) (add32 (chF e f g) (add32 (K256.getD i 0) (w.getD i 0))))
  let t2 := add32 (bSig0 a) (majF a b c)
  #[add32 t1 t2, a, b, c, add32 d t1, e, f, g]

/-- SHA-256 compression of one 64-byte block into the hash state. -/
def sha256Block (h : Array Nat) (block : List Nat) : Array Nat :=
  let w := extendW (beWords block).toArray
  let s := (List.range 64).foldl (compressStep w) h
  #[ add32 (h.getD 0 0) (s.getD 0 0), add32 (h.getD 1 0) (s.getD 1 0)
   , add32 (h.getD 2 0) (s.getD 2 0), add32 (h.getD 3 0) (s.getD 3 0)
   , add32 (h.getD 4 0) (s.getD 4 0), add32 (h.getD 5 0) (s.getD 5 0)
   , add32 (h.getD 6 0) (s.getD 6 0), add32 (h.getD 7 0) (s.getD 7 0) ]

/-- Split a byte list into 64-byte blocks. -/
def chunk64 (l : List Nat) : List (List Nat) :=
  match l with
  | [] => []
  | x :: rest => (x :: rest).take 64 :: chunk64 (rest.drop 63)
  termination_by l.length
  decreasing_by simp [List.length_drop]; omega

/-- The SHA-256 digest (32 bytes) of a byte string: the model of the
platform primitive `crypto.subtle.digest("SHA-256", data)` called by
`sha256` in `InsuranceDemoApp.tsx`. -/
def sha256Bytes (msg : List Nat) : List Nat :=
  let final := (chunk64 (sha256Pad msg)).foldl sha256Block H256.toArray
  final.toList.foldr (fun x acc => be32 x ++ acc) []

/-- The standard base64 alphabet indexed by 6-bit value. -/
def b64Alphabet : List Char :=
  "ABCDEFGHIJKLMNOPQRSTUVWXYZabcdefghijklmnopqrstuvwxyz0123456789+/".data

/-- The base64url alphabet indexed by 6-bit value. -/
def b64UrlAlphabet : List Char :=
  "ABCDEFGHIJKLMNOPQRSTUVWXYZabcdefghijklmnopqrstuvwxyz0123456789-_".data

/-- Standard-alphabet base64 digit for a 6-bit value. -/
def b64Char (n : Nat) : Char := b64Alphabet.getD n 'A'

/-- Url-safe base64 digit for a 6-bit value. -/
def b64uChar (n : Nat) : Char := b64UrlAlphabet.getD n 'A'

/-- Standard base64 encoding of a byte list with `=` padding: the model
of `btoa(String.fromCharCode(...uint8Array))`. -/
def base64Chars : List Nat → List Char
  | [] => []
  | [b1] => [b64Char (b1 / 4), b64Char (b1 % 4 * 16), '=', '=']
  | [b1, b2] => [b64Char (b1 / 4), b64Char (b1 % 4 * 16 + b2 / 16), b64Char (b2 % 16 * 4), '=']
  | b1 :: b2 :: b3 :: rest =>
      b64Char (b1 / 4) :: b64Char (b1 % 4 * 16 + b2 / 16)
        :: b64Char (b2 % 16 * 4 + b3 / 64) :: b64Char (b3 % 64) :: base64Chars rest

/-- Modelled from the spec: direct base64url encoding without padding
("encodes as base64url without padding", spec section 4.1), the
refinement target for `base64UrlEncode`. -/
def base64UrlChars : List Nat → List Char
  | [] => []
  | [b1] => [b64uChar (b1 / 4), b64uChar (b1 % 4 * 16)]
  | [b1, b2] => [b64uChar (b1 / 4), b64uChar (b1 % 4 * 16 + b2 / 16), b64uChar (b2 % 16 * 4)]
  | b1 :: b2 :: b3 :: rest =>
      b64uChar (b1 / 4) :: b64uChar (b1 % 4 * 16 + b2 / 16)
        :: b64uChar (b2 % 16 * 4 + b3 / 64) :: b64uChar (b3 % 64) :: base64UrlChars rest

/-- The character substitution of `base64UrlEncode`:
`.replace(/\+/g, "-").replace(/\//g, "_")`. -/
def replaceB64Char (c : Char) : Char :=
  if c = '+' then '-' else if c = '/' then '_' else c

/-- The padding strip of `base64UrlEncode`: `.replace(/=+$/, "")`. -/
def stripEqs (l : List Char) : List Char :=
  (l.reverse.dropWhile (fun c => c == '=')).reverse

/-- `base64UrlEncode` (`InsuranceDemoApp.tsx` lines 28-32): standard
base64 via `btoa`, then `+`/`/` substitution and `=`-padding strip. -/
def base64UrlEncode (bytes : List Nat) : String :=
  String.mk (stripEqs ((base64Chars bytes).map replaceB64Char))

/-- UTF-8 bytes of a string (`new TextEncoder().encode(buffer)`). -/
def utf8Bytes (s : String) : List Nat := s.toUTF8.toList.map UInt8.toNat

/-- `sha256` (`InsuranceDemoApp.tsx` lines 34-38): UTF-8 encode, SHA-256
digest, `base64UrlEncode` - the PKCE challenge computation. -/
def sha256 (s : String) : String := base64UrlEncode (sha256Bytes (utf8Bytes s))

/-- Modelled from the spec: `challengeFor(verifier) =
base64url(SHA-256(UTF-8 bytes of verifier))` without padding, as stated
in spec section 4.1; the specification-side counterpart of `sha256`. -/
def challengeForSpec (s : String) : String :=
  String.mk (base64UrlChars (sha256Bytes (utf8Bytes s)))

/-- A character is clean for base64url output: not `+`, `/` or `=`. -/
def goodB64u (c : Char) : Bool := !(c == '+') && !(c == '/') && !(c == '=')

/-- All characters of a string are clean base64url output characters. -/
def noBadB64Chars (s : String) : Bool := s.data.all goodB64u

namespace JsonStorage

/-- Browser `sessionStorage` together with its failure mode: when
`broken` is true (storage disabled, quota exceeded), every storage
operation throws. -/
structure JsStorage where
  broken : Bool := false
  items : List (String × String) := []
  deriving DecidableEq, Repr

/-- Raw lookup in the stored key/value pairs. -/
def lookupItem (st : JsStorage) (k : String) : Option String :=
  (st.items.find? (fun p => p.1 == k)).map Prod.snd

/-- `sessionStorage.setItem`, which can throw: `none` models the
exception. -/
def setItemJS (st : JsStorage) (k v : String) : Option JsStorage :=
  if st.broken then none
  else some { st with items := (k, v) :: st.items.filter (fun p => !(p.1 == k)) }

/-- `sessionStorage.getItem`, which can throw when storage access is
denied: outer `none` models the exception, inner `Option` the `null`
result for a missing key. -/
def getItemJS (st : JsStorage) (k : String) : Option (Option String) :=
  if st.broken then none else some (lookupItem st k)

/-- `saveSession` (`InsuranceDemoApp.tsx` line 52), parametric in the
platform serializer `JSON.stringify` (whose own failure, e.g. on a
cyclic value, is modelled by `none`): any exception inside the `try` is
swallowed and the storage is left as it was. -/
def saveSession {α : Type} (stringify : α → Option String) (st : JsStorage)
    (k : String) (v : α) : JsStorage :=
  match stringify v with
  | none => st
  | some sv =>
    match setItemJS st k sv with
    | none => st
    | some st2 => st2

/-- `loadSession` (`InsuranceDemoApp.tsx` lines 54-56), parametric in
the platform parser `JSON.parse` (`none` models a parse exception):
returns the fallback on a storage exception, on a missing key, on the
falsy `""` item, and on a parse failure. -/
def loadSession {α : Type} (parse : String → Option α) (st : JsStorage)
    (k : String) (fallback : α) : α :=
  match getItemJS st k with
  | none => fallback
  | some none => fallback
  | some (some sv) =>
    if sv = "" then fallback
    else
      match parse sv with
      | none => fallback
      | some v => v

end JsonStorage

/-- A concrete `sessionStorage` state holding one pending login flow for
state `"s1"` (used by the concrete instances below). -/
def storeWithFlow : Store := fun k =>
  if k = "pkce_state" then some (SVal.s "s1")
  else if k = "pkce_verifier:s1" then some (SVal.s "ver1")
  else if k = "pkce_client:s1" then some (SVal.s "cid1")
  else none

/-- App state at a redirect landing for the pending `"s1"` flow. -/
def appWithFlow : App := { store := storeWithFlow }

/-- A successful token-endpoint response. -/
def respOk200 : TokenResponse :=
  { status := 200, jsonBody := some { access_token := some "newAT" }, textBody := "" }

/-- A failed token-endpoint response: HTTP 400, `invalid_grant`. -/
def resp400 : TokenResponse :=
  { status := 400, jsonBody := none, textBody := "invalid_grant" }

/-- A normalized step-up challenge with both identifiers present. -/
def stepUpChallenge : RawChallenge :=
  { flowId := some "flow-1", authenticatorId := some "auth-1" }

/-- A step-up challenge response with none of the recognized fields. -/
def emptyChallenge : RawChallenge := {}

/-- An uninsured vehicle for the purchase scenario. -/
def demoVehicle : Vehicle :=
  { vehicleId := "VEH-003"
  , make := "Toyota"
  , model := "Hiace"
  , registrationNumber := "WP-KA-9912"
  , type := "VAN"
  , manufactureYear := 2020
  , estimatedValue := 5200000
  , currency := "LKR"
  , insuranceStatus := { isInsured := false }
  , actionsAvailable := { canGetQuote := true, canBuyInsurance := false, canViewPolicy := false } }

/-- A quote for `demoVehicle`. -/
def demoQuote : Quote :=
  { id := "q-1", vehicleId := "VEH-003", premium := 120, coverage := "Full", validUntil := "2026-01-01" }

/-- Component state at the moment the user submits the step-up OTP:
logged in with access token `"oldAT"`, a normalized challenge present,
a vehicle selected and a quote obtained. -/
def otpSubmitApp : App :=
  { tokens := some { access_token := some "oldAT" }
  , otpVisible := true
  , otpValue := "123456"
  , otpResponse := some (OtpResp.challenge stepUpChallenge)
  , vehicles := some mockVehicles
  , selectedVehicle := some demoVehicle
  , quote := some demoQuote }

/-- Oracles of the happy step-up path: OTP verification completes with
an embedded code, the `CLIENT_ID2` exchange returns `"newAT"`, and the
buy-insurance request succeeds. -/
def otpSubmitOracles : SubmitOracles :=
  { verifyStatus := 200
  , verifyJson := some { flowStatus := some "SUCCESS_COMPLETED", authData := some { code := some "stepup-code" } }
  , tokenResp := { status := 200, jsonBody := some { access_token := some "newAT" } }
  , buyStatus := 200
  , buyJson := some { policyNumber := some "POL-9", endDate := some "2027-01-01" } }

/-- Default (unused) oracles for invocations that fail before any call. -/
def noopOracles : SubmitOracles := {}

/-- A trivial serializer instantiating the `JSON.stringify` parameter in
concrete instances. -/
def boolStringify (b : Bool) : Option String := some (if b then "T" else "F")

/-- The matching trivial parser instantiating `JSON.parse`. -/
def boolParse (s : String) : Option Bool :=
  if s = "T" then some true else if s = "F" then some false else none

/-- A working storage state with one unrelated key. -/
def demoStorage : JsonStorage.JsStorage := { broken := false, items := [("other", "x")] }

/-- A 43-character PKCE verifier used as concrete instance. -/
def pkceWitnessVerifier : String := "aaaaaaaaaaaaaaaaaaaaaaaaaaaaaaaaaaaaaaaaaaa"

theorem getItem_setItem_self (st : Store) (k : String) (v : SVal) :
    getItem (setItem st k v) k = some v := by
  simp [getItem, setItem]

theorem getItem_setItem_ne (st : Store) (k k2 : String) (v : SVal) (h : k2 ≠ k) :
    getItem (setItem st k v) k2 = getItem st k2 := by
  simp [getItem, setItem, h]

theorem getItem_removeItem_self (st : Store) (k : String) :
    getItem (removeItem st k) k = none := by
  simp [getItem, removeItem]

theorem getItem_removeItem_ne (st : Store) (k k2 : String) (h : k2 ≠ k) :
    getItem (removeItem st k) k2 = getItem st k2 := by
  simp [getItem, removeItem, h]

theorem key_len_ne {a b : String} (h : a.length ≠ b.length) : a ≠ b :=
  fun e => h (congrArg String.length e)

theorem usedCodeKey_length (s c : String) :
    (usedCodeKey s c).length = s.length + c.length + 16 := by
  have h1 : ("pkce_code_used:" : String).length = 15 := by decide
  have h2 : (":" : String).length = 1 := by decide
  simp only [usedCodeKey, String.length_append, h1, h2]
  omega

theorem usedKey_ne_tokens (s c : String) : usedCodeKey s c ≠ "tokens" := by
  apply key_len_ne
  rw [usedCodeKey_length]
  have : ("tokens" : String).length = 6 := by decide
  omega

theorem usedKey_ne_verifier (s c : String) : usedCodeKey s c ≠ "pkce_verifier:" ++ s := by
  apply key_len_ne
  rw [usedCodeKey_length, String.length_append]
  have : ("pkce_verifier:" : String).length = 14 := by decide
  omega

theorem usedKey_ne_client (s c : String) : usedCodeKey s c ≠ "pkce_client:" ++ s := by
  apply key_len_ne
  rw [usedCodeKey_length, String.length_append]
  have : ("pkce_client:" : String).length = 12 := by decide
  omega

theorem state_ne_tokens : ("pkce_state" : String) ≠ "tokens" := by decide

theorem state_ne_verifier (s : String) : ("pkce_state" : String) ≠ "pkce_verifier:" ++ s := by
  apply key_len_ne
  rw [String.length_append]
  have h1 : ("pkce_state" : String).length = 10 := by decide
  have h2 : ("pkce_verifier:" : String).length = 14 := by decide
  omega

theorem state_ne_client (s : String) : ("pkce_state" : String) ≠ "pkce_client:" ++ s := by
  apply key_len_ne
  rw [String.length_append]
  have h1 : ("pkce_state" : String).length = 10 := by decide
  have h2 : ("pkce_client:" : String).length = 12 := by decide
  omega

theorem verifier_ne_client_same (s : String) :
    ("pkce_verifier:" ++ s : String) ≠ "pkce_client:" ++ s := by
  apply key_len_ne
  rw [String.length_append, String.length_append]
  have h1 : ("pkce_verifier:" : String).length = 14 := by decide
  have h2 : ("pkce_client:" : String).length = 12 := by decide
  omega

theorem verifier_ne_tokens (s : String) : ("pkce_verifier:" ++ s : String) ≠ "tokens" := by
  apply key_len_ne
  rw [String.length_append]
  have h1 : ("pkce_verifier:" : String).length = 14 := by decide
  have h2 : ("tokens" : String).length = 6 := by decide
  omega

theorem client_ne_tokens (s : String) : ("pkce_client:" ++ s : String) ≠ "tokens" := by
  apply key_len_ne
  rw [String.length_append]
  have h1 : ("pkce_client:" : String).length = 12 := by decide
  have h2 : ("tokens" : String).length = 6 := by decide
  omega

theorem firstTruthyStr_eq_none {l : List (Option String)} (h : firstTruthyStr l = none) :
    ∀ a ∈ l, truthyStrO a = false := by
  induction l with
  | nil => simp
  | cons a t ih =>
    intro x hx
    by_cases ha : truthyStrO a = true
    · unfold firstTruthyStr at h
      rw [if_pos ha] at h
      rw [h] at ha
      simp [truthyStrO] at ha
    · unfold firstTruthyStr at h
      rw [if_neg ha] at h
      rcases List.mem_cons.mp hx with rfl | hx2
      · exact Bool.not_eq_true _ ▸ (by simpa using ha)
      · exact ih h x hx2

theorem exchange_preserves_key (app : App) (resp : TokenResponse) (code s k : String)
    (hk1 : k ≠ "tokens") (hk2 : k ≠ "pkce_verifier:" ++ s) (hk3 : k ≠ "pkce_client:" ++ s) :
    getItem (exchangeCodeForTokens app resp code (some s)).1.store k = getItem app.store k := by
  unfold exchangeCodeForTokens
  dsimp only
  repeat' split
  all_goals first
    | rfl
    | (rw [getItem_removeItem_ne _ _ _ hk3, getItem_removeItem_ne _ _ _ hk2,
        getItem_setItem_ne _ _ _ _ hk1])
    | (exact getItem_setItem_ne _ _ _ _ hk1)

theorem exchange_tokenCallCount (app : App) (resp : TokenResponse) (code s : String)
    (hs : s ≠ "") (hv : truthyO (getItem app.store ("pkce_verifier:" ++ s)) = true) :
    tokenCallCount (exchangeCodeForTokens app resp code (some s)).2 = 1 := by
  unfold exchangeCodeForTokens
  dsimp only
  repeat' split
  all_goals simp_all [tokenCallCount, tokenCallsOf, NetCall.isTokenExchange]

theorem redirectSync_none_of_marker (app : App) (c s : String)
    (h : truthyO (getItem app.store (usedCodeKey s c)) = true) :
    redirectSync app (some c) (some s) = (app, none) := by
  unfold redirectSync
  repeat' split
  all_goals first | rfl | simp_all

theorem redirectSync_none_of_mismatch (app : App) (c s : String)
    (h : getItem app.store "pkce_state" ≠ some (SVal.s s)) :
    redirectSync app (some c) (some s) = (app, none) := by
  unfold redirectSync
  repeat' split
  all_goals first | rfl | simp_all

theorem redirectSync_pass (app : App) (c s : String)
    (hc : c ≠ "") (hs : s ≠ "")
    (hst : getItem app.store "pkce_state" = some (SVal.s s))
    (hmk : getItem app.store (usedCodeKey s c) = none)
    (hex : app.exchanging = false) :
    redirectSync app (some c) (some s)
      = ({ app with
            exchanging := true
            store := setItem app.store (usedCodeKey s c) (SVal.s "1") }, some (c, s)) := by
  unfold redirectSync
  dsimp only
  rw [if_neg (by simp [hc, hs] : ¬(c = "" ∨ s = ""))]
  rw [if_neg (by simp [hst] : ¬(getItem app.store "pkce_state" ≠ some (SVal.s s)))]
  rw [if_neg (by simp [hmk, hex, truthyO] : ¬((truthyO (getItem app.store (usedCodeKey s c)) || app.exchanging) = true))]

theorem handleRedirect_noop_of_marker (app : App) (resp : TokenResponse) (c s : String)
    (h : truthyO (getItem app.store (usedCodeKey s c)) = true) :
    handleRedirectLanding app resp (some c) (some s) = (app, []) := by
  unfold handleRedirectLanding
  rw [redirectSync_none_of_marker app c s h]

theorem exchange_calls_le_one (app : App) (resp : TokenResponse) (code : String)
    (stateO : Option String) :
    tokenCallCount (exchangeCodeForTokens app resp code stateO).2 ≤ 1 := by
  unfold exchangeCodeForTokens
  dsimp only
  repeat' split
  all_goals simp [tokenCallCount, tokenCallsOf, NetCall.isTokenExchange, List.filter]

theorem handleRedirect_calls_le_one (app : App) (resp : TokenResponse)
    (codeQ stateQ : Option String) :
    tokenCallCount (handleRedirectLanding app resp codeQ stateQ).2 ≤ 1 := by
  unfold handleRedirectLanding
  rcases hsync : redirectSync app codeQ stateQ with ⟨app1, pend⟩
  cases pend with
  | none => simp [tokenCallCount, tokenCallsOf]
  | some p =>
    rcases p with ⟨c2, s2⟩
    dsimp only [redirectAsync]
    exact exchange_calls_le_one app1 resp c2 (some s2)

theorem handleRedirect_noop_or_marker (app : App) (resp : TokenResponse) (c s : String) :
    handleRedirectLanding app resp (some c) (some s) = (app, [])
    ∨ truthyO (getItem (handleRedirectLanding app resp (some c) (some s)).1.store
        (usedCodeKey s c)) = true := by
  by_cases h1 : c = "" ∨ s = ""
  · left
    unfold handleRedirectLanding redirectSync
    dsimp only
    rw [if_pos h1]
  · by_cases h2 : getItem app.store "pkce_state" ≠ some (SVal.s s)
    · left
      unfold handleRedirectLanding
      rw [redirectSync_none_of_mismatch app c s h2]
    · by_cases h3 : (truthyO (getItem app.store (usedCodeKey s c)) || app.exchanging) = true
      · left
        unfold handleRedirectLanding redirectSync
        dsimp only
        rw [if_neg h1, if_neg h2, if_pos h3]
      · right
        have hsync : redirectSync app (some c) (some s)
            = ({ app with
                  exchanging := true
                  store := setItem app.store (usedCodeKey s c) (SVal.s "1") }, some (c, s)) := by
          unfold redirectSync
          dsimp only
          rw [if_neg h1, if_neg h2, if_neg h3]
        unfold handleRedirectLanding
        rw [hsync]
        dsimp only [redirectAsync]
        rw [exchange_preserves_key _ resp c s _ (usedKey_ne_tokens s c)
          (usedKey_ne_verifier s c) (usedKey_ne_client s c)]
        rw [getItem_setItem_self]
        decide

theorem handleRedirect_second_noop (app : App) (resp : TokenResponse)
    (codeQ stateQ : Option String) :
    handleRedirectLanding (handleRedirectLanding app resp codeQ stateQ).1 resp codeQ stateQ
      = ((handleRedirectLanding app resp codeQ stateQ).1, []) := by
  rcases codeQ with _ | c
  · rfl
  · rcases stateQ with _ | s
    · rfl
    · rcases handleRedirect_noop_or_marker app resp c s with h | h
      · rw [h]
        exact h
      · exact handleRedirect_noop_of_marker _ resp c s h

/-- C1 (counterexample): the claim "for every (state, code) pair,
invoking the redirect-landing handler twice with identical URL
parameters results in exactly one token-exchange network call" fails at
the concrete input where the arriving `state` `"s2"` differs from the
stored pending state `"s1"`: both invocations are no-ops and zero
token-exchange calls are made. -/
theorem c1_counterexample :
    tokenCallCount ((handleRedirectLanding appWithFlow respOk200 (some "c1") (some "s2")).2
      ++ (handleRedirectLanding (handleRedirectLanding appWithFlow respOk200 (some "c1") (some "s2")).1
            respOk200 (some "c1") (some "s2")).2) ≠ 1 := by
  decide

/-- C1 (amended): universally - for every state, every token response
and every pair of URL parameters - the redirect-landing handler makes at
most one token-exchange network call across two invocations with
identical parameters, and the second invocation is always a no-op
(state unchanged, zero calls).  Moreover, when the arriving
`(state, code)` pair passes the guards - nonempty parameters, `state`
equal to the stored pending state, used-code marker absent, in-flight
flag clear, and a verifier stored for that state - the first invocation
makes exactly one token-exchange network call, the durable used-code
marker keyed by `(state, code)` is already written at the end of the
synchronous guard phase (which makes no network call, so before the
exchange begins), and the in-flight flag is set there too. -/
theorem c1_amended (app app2 : App) (resp resp2 : TokenResponse) (c s v : String)
    (codeQ stateQ : Option String)
    (hc : c ≠ "") (hs : s ≠ "")
    (hst : getItem app.store "pkce_state" = some (SVal.s s))
    (hmk : getItem app.store (usedCodeKey s c) = none)
    (hex : app.exchanging = false)
    (hv : getItem app.store ("pkce_verifier:" ++ s) = some (SVal.s v))
    (hvne : v ≠ "") :
    tokenCallCount ((handleRedirectLanding app2 resp2 codeQ stateQ).2
        ++ (handleRedirectLanding (handleRedirectLanding app2 resp2 codeQ stateQ).1 resp2
              codeQ stateQ).2) ≤ 1
    ∧ handleRedirectLanding (handleRedirectLanding app2 resp2 codeQ stateQ).1 resp2 codeQ stateQ
        = ((handleRedirectLanding app2 resp2 codeQ stateQ).1, [])
    ∧ tokenCallCount (handleRedirectLanding app resp (some c) (some s)).2 = 1
    ∧ getItem (redirectSync app (some c) (some s)).1.store (usedCodeKey s c) = some (SVal.s "1")
    ∧ (redirectSync app (some c) (some s)).1.exchanging = true := by
  have hpass := redirectSync_pass app c s hc hs hst hmk hex
  have hne_v : ("pkce_verifier:" ++ s : String) ≠ usedCodeKey s c :=
    Ne.symm (usedKey_ne_verifier s c)
  have hv1 : truthyO (getItem (setItem app.store (usedCodeKey s c) (SVal.s "1"))
      ("pkce_verifier:" ++ s)) = true := by
    rw [getItem_setItem_ne _ _ _ _ hne_v, hv]
    simp [truthyO, SVal.truthy, hvne]
  refine ⟨?_, handleRedirect_second_noop app2 resp2 codeQ stateQ, ?_, ?_, ?_⟩
  · have h2c : (handleRedirectLanding (handleRedirectLanding app2 resp2 codeQ stateQ).1 resp2
        codeQ stateQ).2 = [] := by
      rw [handleRedirect_second_noop app2 resp2 codeQ stateQ]
    rw [h2c, List.append_nil]
    exact handleRedirect_calls_le_one app2 resp2 codeQ stateQ
  · unfold handleRedirectLanding
    rw [hpass]
    dsimp only [redirectAsync]
    exact exchange_tokenCallCount _ resp c s hs hv1
  · rw [hpass]
    exact getItem_setItem_self _ _ _
  · rw [hpass]

/-- C1 (witness): the amended theorem instantiated at the concrete
pending flow for state `"s1"` with code `"c1"`, using the same concrete
values for the universally quantified state and parameters. -/
theorem c1_witness :
    ("c1" ≠ "" ∧ "s1" ≠ ""
      ∧ getItem appWithFlow.store "pkce_state" = some (SVal.s "s1")
      ∧ getItem appWithFlow.store (usedCodeKey "s1" "c1") = none
      ∧ appWithFlow.exchanging = false
      ∧ getItem appWithFlow.store ("pkce_verifier:" ++ "s1") = some (SVal.s "ver1")
      ∧ "ver1" ≠ "")
    ∧ (tokenCallCount ((handleRedirectLanding appWithFlow respOk200 (some "c1") (some "s1")).2
          ++ (handleRedirectLanding (handleRedirectLanding appWithFlow respOk200 (some "c1")
                (some "s1")).1 respOk200 (some "c1") (some "s1")).2) ≤ 1
      ∧ handleRedirectLanding (handleRedirectLanding appWithFlow respOk200 (some "c1")
            (some "s1")).1 respOk200 (some "c1") (some "s1")
          = ((handleRedirectLanding appWithFlow respOk200 (some "c1") (some "s1")).1, [])
      ∧ tokenCallCount (handleRedirectLanding appWithFlow respOk200 (some "c1") (some "s1")).2 = 1
      ∧ getItem (redirectSync appWithFlow (some "c1") (some "s1")).1.store (usedCodeKey "s1" "c1")
          = some (SVal.s "1")
      ∧ (redirectSync appWithFlow (some "c1") (some "s1")).1.exchanging = true) :=
  ⟨⟨by decide, by decide, by decide, by decide, rfl, by decide, by decide⟩,
   c1_amended appWithFlow appWithFlow respOk200 respOk200 "c1" "s1" "ver1" (some "c1")
     (some "s1") (by decide) (by decide) (by decide) (by decide) rfl (by decide) (by decide)⟩

/-- C5: a redirect landing whose `state` query parameter does not match
the stored pending state, or whose `code` or `state` parameter is
absent, performs no token-exchange call and changes nothing at all -
state, storage and the error message are untouched (nothing is thrown
and nothing user-visible happens). -/
theorem c5_state_mismatch_silent (app : App) (resp : TokenResponse) (c s : String)
    (codeQ stateQ : Option String)
    (hmis : getItem app.store "pkce_state" ≠ some (SVal.s s)) :
    handleRedirectLanding app resp (some c) (some s) = (app, [])
    ∧ handleRedirectLanding app resp none stateQ = (app, [])
    ∧ handleRedirectLanding app resp codeQ none = (app, []) := by
  refine ⟨?_, ?_, ?_⟩
  · unfold handleRedirectLanding
    rw [redirectSync_none_of_mismatch app c s hmis]
  · rfl
  · cases codeQ <;> rfl

/-- C5 (witness): the mismatch theorem instantiated at the pending
`"s1"` flow receiving a redirect carrying state `"s2"`. -/
theorem c5_witness :
    (getItem appWithFlow.store "pkce_state" ≠ some (SVal.s "s2"))
    ∧ (handleRedirectLanding appWithFlow respOk200 (some "c1") (some "s2") = (appWithFlow, [])
      ∧ handleRedirectLanding appWithFlow respOk200 none none = (appWithFlow, [])
      ∧ handleRedirectLanding appWithFlow respOk200 (some "c1") none = (appWithFlow, [])) :=
  ⟨by decide,
   c5_state_mismatch_silent appWithFlow respOk200 "c1" "s2" (some "c1") none (by decide)⟩

/-- C6: when the token endpoint responds non-2xx, `exchangeCodeForTokens`
sets an error message carrying the response status and body (with the
`"See Network tab."` placeholder for an empty body), and leaves the
stored token set untouched: neither the `tokens` state nor the storage
changes on the error path. -/
theorem c6_token_error_preserves_tokens (app : App) (resp : TokenResponse) (c s v : String)
    (hs : s ≠ "") (hv : getItem app.store ("pkce_verifier:" ++ s) = some (SVal.s v))
    (hvne : v ≠ "") (hnok : respOk resp = false) :
    (exchangeCodeForTokens app resp c (some s)).1.error
      = "Token exchange failed (" ++ toString resp.status ++ "). "
        ++ (if resp.textBody = "" then "See Network tab." else resp.textBody)
    ∧ (exchangeCodeForTokens app resp c (some s)).1.tokens = app.tokens
    ∧ (exchangeCodeForTokens app resp c (some s)).1.store = app.store := by
  unfold exchangeCodeForTokens
  dsimp only
  repeat' split
  all_goals simp_all [truthyO, SVal.truthy]

/-- C6 (witness): the non-2xx theorem instantiated at the pending
`"s1"` flow and an HTTP 400 `invalid_grant` token response. -/
theorem c6_witness :
    ("s1" ≠ "" ∧ getItem appWithFlow.store ("pkce_verifier:" ++ "s1") = some (SVal.s "ver1")
      ∧ "ver1" ≠ "" ∧ respOk resp400 = false)
    ∧ ((exchangeCodeForTokens appWithFlow resp400 "c1" (some "s1")).1.error
        = "Token exchange failed (" ++ toString resp400.status ++ "). "
          ++ (if resp400.textBody = "" then "See Network tab." else resp400.textBody)
      ∧ (exchangeCodeForTokens appWithFlow resp400 "c1" (some "s1")).1.tokens = appWithFlow.tokens
      ∧ (exchangeCodeForTokens appWithFlow resp400 "c1" (some "s1")).1.store = appWithFlow.store) :=
  ⟨⟨by decide, by decide, by decide, by decide⟩,
   c6_token_error_preserves_tokens appWithFlow resp400 "c1" "s1" "ver1" (by decide) (by decide)
     (by decide) (by decide)⟩

theorem exchange_success_removes (app : App) (resp : TokenResponse) (c s v : String)
    (hs : s ≠ "") (hv : getItem app.store ("pkce_verifier:" ++ s) = some (SVal.s v))
    (hvne : v ≠ "") (hok : respOk resp = true) (j : TokenJson) (hj : resp.jsonBody = some j) :
    getItem (exchangeCodeForTokens app resp c (some s)).1.store ("pkce_verifier:" ++ s) = none
    ∧ getItem (exchangeCodeForTokens app resp c (some s)).1.store ("pkce_client:" ++ s) = none := by
  have htr : truthyO (getItem app.store ("pkce_verifier:" ++ s)) = true := by
    rw [hv]; simp [truthyO, SVal.truthy, hvne]
  unfold exchangeCodeForTokens
  dsimp only
  simp only [eq_true hs, if_true, htr, hok, hj, eq_self_iff_true, not_true, if_false,
    Bool.false_eq_true, ite_true, ite_false]
  constructor
  · rw [getItem_removeItem_ne _ _ _ (verifier_ne_client_same s), getItem_removeItem_self]
  · rw [getItem_removeItem_self]

theorem exchange_store_unchanged_of_not_success (app : App) (resp : TokenResponse) (c s : String)
    (hfail : (respOk resp && resp.jsonBody.isSome) = false) :
    (exchangeCodeForTokens app resp c (some s)).1.store = app.store := by
  unfold exchangeCodeForTokens
  dsimp only
  repeat' split
  all_goals simp_all

/-- C7 (counterexample): the claim that the FlowState entries for a
state are removed "whether the exchange succeeds or fails" is false at
the concrete failed exchange (HTTP 400): the per-state verifier entry is
still present afterwards (and so are the client-id and pending-state
entries). -/
theorem c7_counterexample :
    getItem (exchangeCodeForTokens appWithFlow resp400 "c1" (some "s1")).1.store
        "pkce_verifier:s1" = some (SVal.s "ver1")
    ∧ getItem (exchangeCodeForTokens appWithFlow resp400 "c1" (some "s1")).1.store
        "pkce_client:s1" = some (SVal.s "cid1") := by
  decide

/-- C7 (amended): only after a successful code exchange (2xx response
with a JSON body) are the per-state verifier and client-id entries
removed from the session store; after a failed exchange the storage is
completely unchanged; and the pending-state entry `pkce_state` is never
removed by the exchange, in either case. -/
theorem c7_amended (app : App) (resp : TokenResponse) (c s v : String)
    (hs : s ≠ "") (hv : getItem app.store ("pkce_verifier:" ++ s) = some (SVal.s v))
    (hvne : v ≠ "") :
    (if (respOk resp && resp.jsonBody.isSome) = true then
        getItem (exchangeCodeForTokens app resp c (some s)).1.store ("pkce_verifier:" ++ s) = none
        ∧ getItem (exchangeCodeForTokens app resp c (some s)).1.store ("pkce_client:" ++ s) = none
      else (exchangeCodeForTokens app resp c (some s)).1.store = app.store)
    ∧ getItem (exchangeCodeForTokens app resp c (some s)).1.store "pkce_state"
        = getItem app.store "pkce_state" := by
  constructor
  · by_cases hcond : (respOk resp && resp.jsonBody.isSome) = true
    · rw [if_pos hcond]
      rcases hj : resp.jsonBody with _ | j
      · rw [hj] at hcond; simp at hcond
      · exact exchange_success_removes app resp c s v hs hv hvne
          (by rcases Bool.and_eq_true_iff.mp hcond with ⟨h1, _⟩; exact h1) j hj
    · rw [if_neg hcond]
      exact exchange_store_unchanged_of_not_success app resp c s
        (Bool.not_eq_true _ ▸ Bool.of_not_eq_true hcond)
  · exact exchange_preserves_key app resp c s _ state_ne_tokens (state_ne_verifier s)
      (state_ne_client s)

/-- C7 (witness): the amended theorem instantiated at the pending
`"s1"` flow and a successful token response. -/
theorem c7_witness :
    ("s1" ≠ "" ∧ getItem appWithFlow.store ("pkce_verifier:" ++ "s1") = some (SVal.s "ver1")
      ∧ "ver1" ≠ "")
    ∧ ((if (respOk respOk200 && respOk200.jsonBody.isSome) = true then
          getItem (exchangeCodeForTokens appWithFlow respOk200 "c1" (some "s1")).1.store
              ("pkce_verifier:" ++ "s1") = none
          ∧ getItem (exchangeCodeForTokens appWithFlow respOk200 "c1" (some "s1")).1.store
              ("pkce_client:" ++ "s1") = none
        else (exchangeCodeForTokens appWithFlow respOk200 "c1" (some "s1")).1.store
          = appWithFlow.store)
      ∧ getItem (exchangeCodeForTokens appWithFlow respOk200 "c1" (some "s1")).1.store "pkce_state"
          = getItem appWithFlow.store "pkce_state") :=
  ⟨⟨by decide, by decide, by decide⟩,
   c7_amended appWithFlow respOk200 "c1" "s1" "ver1" (by decide) (by decide) (by decide)⟩

/-- C10: `fetchVehicles` resolves with the built-in three-vehicle mock
list for every response that is HTTP 204, non-OK, non-JSON, or JSON of
an unrecognized shape (not an array and without a `vehicles`/`list`
array field); it never rejects on such responses, so a backend failure
is indistinguishable from a user owning exactly the mock vehicles. -/
theorem c10_fetchVehicles_fallback (st : Nat) (jb : Option VehiclesJson)
    (hbad : st = 204 ∨ st < 200 ∨ 300 ≤ st) :
    fetchVehicles { status := st, jsonBody := jb } = mockVehicles
    ∧ fetchVehicles { status := 200, jsonBody := none } = mockVehicles
    ∧ fetchVehicles { status := 200, jsonBody := some VehiclesJson.jother } = mockVehicles
    ∧ fetchVehicles { status := 200, jsonBody := some (VehiclesJson.jobj none none) }
        = mockVehicles
    ∧ fetchVehicles
        { status := 200, jsonBody := some (VehiclesJson.jobj (some VehiclesField.vother) none) }
        = mockVehicles
    ∧ fetchVehicles
        { status := 200, jsonBody := some (VehiclesJson.jobj none (some VehiclesField.vother)) }
        = mockVehicles
    ∧ fetchVehicles
        { status := 200
        , jsonBody := some (VehiclesJson.jobj (some VehiclesField.vother) (some VehiclesField.vother)) }
        = mockVehicles
    ∧ mockVehicles.length = 3 := by
  refine ⟨?_, rfl, rfl, rfl, rfl, rfl, rfl, rfl⟩
  rcases hbad with h | h | h
  · simp [fetchVehicles, h]
  · have h204 : st ≠ 204 := by omega
    have hok : okStatus st = false := by simp only [okStatus, decide_eq_false_iff_not]; omega
    simp [fetchVehicles, h204, hok]
  · have h204 : st ≠ 204 := by omega
    have hok : okStatus st = false := by simp only [okStatus, decide_eq_false_iff_not]; omega
    simp [fetchVehicles, h204, hok]

/-- C10 (witness): the fallback theorem instantiated at an HTTP 500
response whose body even contains a vehicle array. -/
theorem c10_witness :
    (500 = 204 ∨ 500 < 200 ∨ 300 ≤ 500)
    ∧ (fetchVehicles { status := 500, jsonBody := some (VehiclesJson.jarr []) } = mockVehicles
      ∧ fetchVehicles { status := 200, jsonBody := none } = mockVehicles
      ∧ fetchVehicles { status := 200, jsonBody := some VehiclesJson.jother } = mockVehicles
      ∧ fetchVehicles { status := 200, jsonBody := some (VehiclesJson.jobj none none) }
          = mockVehicles
      ∧ fetchVehicles
          { status := 200, jsonBody := some (VehiclesJson.jobj (some VehiclesField.vother) none) }
          = mockVehicles
      ∧ fetchVehicles
          { status := 200, jsonBody := some (VehiclesJson.jobj none (some VehiclesField.vother)) }
          = mockVehicles
      ∧ fetchVehicles
          { status := 200
          , jsonBody := some (VehiclesJson.jobj (some VehiclesField.vother) (some VehiclesField.vother)) }
          = mockVehicles
      ∧ mockVehicles.length = 3) :=
  ⟨by decide, c10_fetchVehicles_fallback 500 (some (VehiclesJson.jarr [])) (by decide)⟩

/-- C9: with a working storage and a value the serializer round-trips,
`saveSession` followed by `loadSession` returns the saved value;
`loadSession` on a missing key returns the supplied fallback; and on a
broken storage both operations silently degrade - `saveSession` is a
no-op and `loadSession` returns the fallback - instead of throwing. -/
theorem c9_session_roundtrip {α : Type} (stringify : α → Option String)
    (parse : String → Option α) (st : JsonStorage.JsStorage) (k : String) (v : α)
    (fb : α) (sv : String)
    (hb : st.broken = false) (h1 : stringify v = some sv) (h2 : sv ≠ "")
    (h3 : parse sv = some v) :
    JsonStorage.loadSession parse (JsonStorage.saveSession stringify st k v) k fb = v
    ∧ JsonStorage.loadSession parse { broken := false, items := [] } k fb = fb
    ∧ JsonStorage.saveSession stringify { st with broken := true } k v = { st with broken := true }
    ∧ JsonStorage.loadSession parse { st with broken := true } k fb = fb := by
  refine ⟨?_, ?_, ?_, ?_⟩
  · unfold JsonStorage.saveSession JsonStorage.loadSession JsonStorage.setItemJS
      JsonStorage.getItemJS JsonStorage.lookupItem
    rw [h1]
    simp [hb, h2, h3]
  · unfold JsonStorage.loadSession JsonStorage.getItemJS JsonStorage.lookupItem
    simp
  · unfold JsonStorage.saveSession JsonStorage.setItemJS
    rw [h1]
    simp
  · unfold JsonStorage.loadSession JsonStorage.getItemJS
    simp

/-- C9 (witness): the round-trip theorem instantiated with a concrete
boolean codec, the working `demoStorage`, and the key `"tokens"`. -/
theorem c9_witness :
    (demoStorage.broken = false ∧ boolStringify true = some "T" ∧ "T" ≠ ""
      ∧ boolParse "T" = some true)
    ∧ (JsonStorage.loadSession boolParse (JsonStorage.saveSession boolStringify demoStorage
          "tokens" true) "tokens" false = true
      ∧ JsonStorage.loadSession boolParse { broken := false, items := [] } "tokens" false = false
      ∧ JsonStorage.saveSession boolStringify { demoStorage with broken := true } "tokens" true
          = { demoStorage with broken := true }
      ∧ JsonStorage.loadSession boolParse { demoStorage with broken := true } "tokens" false
          = false) :=
  ⟨⟨rfl, by decide, by decide, by decide⟩,
   c9_session_roundtrip boolStringify boolParse demoStorage "tokens" true false "T" rfl
     (by decide) (by decide) (by decide)⟩

/-- C2 (evaluation at the failing input): on the happy step-up path -
OTP verification completes with an embedded code and the `CLIENT_ID2`
exchange succeeds, storing the new token set with access token
`"newAT"` - the buy-insurance request that follows nevertheless carries
the pre-step-up access token `"oldAT"` read from the closure-captured
`tokens` state, not the newly exchanged one. -/
theorem c2_stale_bearer_eval :
    (submitOtp otpSubmitApp otpSubmitOracles).1.tokens
        = some { access_token := some "newAT", _client_id := some CLIENT_ID2 }
    ∧ (submitOtp otpSubmitApp otpSubmitOracles).2
        = [ NetCall.authn DEFAULT_AUTHN_URL "flow-1" "auth-1" "123456"
          , NetCall.tokenExchange CLIENT_ID2 "stepup-code" none REDIRECT_URI
          , NetCall.buyInsurance "oldAT" "VEH-003" "q-1" ]
    ∧ otpSubmitApp.tokens = some { access_token := some "oldAT" } := by
  decide

/-- C3: when `submitOtp` reaches a 2xx OTP-verification response, it
performs exactly one token-exchange call - using the step-up client
identity `CLIENT_ID2` and the embedded code, with no PKCE verifier -
precisely when the response has `flowStatus` `SUCCESS_COMPLETED` and a
truthy `authData.code`; otherwise it performs zero token-exchange calls
and the stored token set is not rotated (neither the `tokens` state nor
the `"tokens"` storage entry changes). -/
theorem c3_stepup_exchange (app : App) (o : SubmitOracles) (oresp : OtpResp) (f a : String)
    (h1 : app.otpValue ≠ "") (h2 : app.otpResponse = some oresp)
    (h3 : flowIdOfSubmit oresp = some f) (h4 : authIdOfSubmit oresp = some a)
    (h5 : okStatus o.verifyStatus = true) :
    tokenCallsOf (submitOtp app o).2
      = (if doExchangeB o.verifyJson then
          [NetCall.tokenExchange CLIENT_ID2 ((authCodeOf o.verifyJson).getD "") none REDIRECT_URI]
        else [])
    ∧ ((submitOtp app o).1.tokens = app.tokens ∨ doExchangeB o.verifyJson = true)
    ∧ (getItem (submitOtp app o).1.store "tokens" = getItem app.store "tokens"
        ∨ doExchangeB o.verifyJson = true) := by
  unfold submitOtp submitOtpTry buyInsurancePhase
  dsimp only
  rw [if_neg h1, h2]
  dsimp only
  rw [h3]
  dsimp only
  rw [h4]
  dsimp only
  rw [h5]
  by_cases hd : doExchangeB o.verifyJson = true
  · simp only [hd, if_true]
    refine ⟨?_, Or.inr trivial, Or.inr trivial⟩
    repeat' split
    all_goals simp_all [tokenCallsOf, NetCall.isTokenExchange, List.filter]
  · have hdf : doExchangeB o.verifyJson = false := by
      simp only [Bool.not_eq_true] at hd
      exact hd
    simp only [hdf, Bool.false_eq_true, if_false]
    refine ⟨?_, ?_, ?_⟩
    · repeat' split
      all_goals simp_all [tokenCallsOf, NetCall.isTokenExchange, List.filter]
    · left
      repeat' split
      all_goals simp_all
    · left
      repeat' split
      all_goals simp_all

/-- C3 (witness): the exchange-decision theorem instantiated at the
happy step-up submission (`SUCCESS_COMPLETED` with an embedded code). -/
theorem c3_witness :
    (otpSubmitApp.otpValue ≠ ""
      ∧ otpSubmitApp.otpResponse = some (OtpResp.challenge stepUpChallenge)
      ∧ flowIdOfSubmit (OtpResp.challenge stepUpChallenge) = some "flow-1"
      ∧ authIdOfSubmit (OtpResp.challenge stepUpChallenge) = some "auth-1"
      ∧ okStatus otpSubmitOracles.verifyStatus = true)
    ∧ (tokenCallsOf (submitOtp otpSubmitApp otpSubmitOracles).2
        = (if doExchangeB otpSubmitOracles.verifyJson then
            [NetCall.tokenExchange CLIENT_ID2 ((authCodeOf otpSubmitOracles.verifyJson).getD "")
              none REDIRECT_URI]
          else [])
      ∧ ((submitOtp otpSubmitApp otpSubmitOracles).1.tokens = otpSubmitApp.tokens
          ∨ doExchangeB otpSubmitOracles.verifyJson = true)
      ∧ (getItem (submitOtp otpSubmitApp otpSubmitOracles).1.store "tokens"
            = getItem otpSubmitApp.store "tokens"
          ∨ doExchangeB otpSubmitOracles.verifyJson = true)) :=
  ⟨⟨by decide, rfl, by decide, by decide, by decide⟩,
   c3_stepup_exchange otpSubmitApp otpSubmitOracles (OtpResp.challenge stepUpChallenge)
     "flow-1" "auth-1" (by decide) rfl (by decide) (by decide) (by decide)⟩

theorem flowIdOf_normalize_none (r : RawChallenge) (h : flowIdOf r = none) :
    flowIdOf (normalizeChallenge r) = none := by
  have hall := firstTruthyStr_eq_none
    (l := [r.flowId, r.flowID, r.sessionDataKey, r.sessionDataKeyConsent, r.sessionState]) h
  have h2 : truthyStrO r.flowID = false := hall _ (by simp)
  have h3 : truthyStrO r.sessionDataKey = false := hall _ (by simp)
  have h4 : truthyStrO r.sessionDataKeyConsent = false := hall _ (by simp)
  have h5 : truthyStrO r.sessionState = false := hall _ (by simp)
  show firstTruthyStr [flowIdOf r, r.flowID, r.sessionDataKey, r.sessionDataKeyConsent,
    r.sessionState] = none
  rw [h]
  have h0 : truthyStrO (none : Option String) = false := rfl
  simp only [firstTruthyStr, h0, h2, h3, h4, h5, Bool.false_eq_true, if_false]

/-- C4 (counterexample): the claim that `startEmailOtp` fails the
attempt rather than presenting the OTP entry step is false at the
concrete raw response with none of the recognized fields: the handler
presents the OTP entry step (`otpVisible` is set) with no error. -/
theorem c4_counterexample :
    (startEmailOtpOk {} emptyChallenge).otpVisible = true
    ∧ (startEmailOtpOk {} emptyChallenge).otpError = none := by
  decide

/-- C4 (amended): when a raw step-up authorize response contains none of
the recognized flow-identifier fields and none of the recognized
authenticator-identifier fields, `startEmailOtp` does not fail the
attempt: it normalizes the response with null identifiers and still
presents the OTP entry step with no error.  The missing identifiers are
detected only at `submitOtp`, which terminally fails the attempt with
the error "Unable to locate flowId in authorize response" and performs
no network call. -/
theorem c4_amended (app : App) (r : RawChallenge) (otp : String) (o : SubmitOracles)
    (hf : flowIdOf r = none) (ha : authenticatorIdOfBegin r = none) (hotp : otp ≠ "") :
    (startEmailOtpOk app r).otpVisible = true
    ∧ (startEmailOtpOk app r).otpError = none
    ∧ (submitOtp { startEmailOtpOk app r with otpValue := otp } o).1.otpError
        = some "Unable to locate flowId in authorize response"
    ∧ (submitOtp { startEmailOtpOk app r with otpValue := otp } o).2 = [] := by
  have hnf : flowIdOfSubmit (OtpResp.challenge (normalizeChallenge r)) = none :=
    flowIdOf_normalize_none r hf
  refine ⟨rfl, rfl, ?_, ?_⟩ <;>
  · unfold submitOtp
    dsimp only [startEmailOtpOk]
    rw [if_neg hotp]
    try dsimp only
    rw [hnf]

/-- C4 (witness): the amended theorem instantiated at the empty raw
response and the OTP `"123456"`. -/
theorem c4_witness :
    (flowIdOf emptyChallenge = none ∧ authenticatorIdOfBegin emptyChallenge = none
      ∧ "123456" ≠ "")
    ∧ ((startEmailOtpOk {} emptyChallenge).otpVisible = true
      ∧ (startEmailOtpOk {} emptyChallenge).otpError = none
      ∧ (submitOtp { startEmailOtpOk {} emptyChallenge with otpValue := "123456" }
            noopOracles).1.otpError
          = some "Unable to locate flowId in authorize response"
      ∧ (submitOtp { startEmailOtpOk {} emptyChallenge with otpValue := "123456" }
            noopOracles).2 = []) :=
  ⟨⟨by decide, by decide, by decide⟩,
   c4_amended {} emptyChallenge "123456" noopOracles (by decide) (by decide) (by decide)⟩

theorem b64Alphabet_length : b64Alphabet.length = 64 := by decide

theorem b64UrlAlphabet_length : b64UrlAlphabet.length = 64 := by decide

theorem b64Char_of_ge (n : Nat) (h : 64 ≤ n) : b64Char n = 'A' := by
  unfold b64Char
  apply List.getD_eq_default
  rw [b64Alphabet_length]
  exact h

theorem b64uChar_of_ge (n : Nat) (h : 64 ≤ n) : b64uChar n = 'A' := by
  unfold b64uChar
  apply List.getD_eq_default
  rw [b64UrlAlphabet_length]
  exact h

theorem replace_b64Char_eq (n : Nat) : replaceB64Char (b64Char n) = b64uChar n := by
  by_cases h : n < 64
  · have hfin : ∀ m : Fin 64, replaceB64Char (b64Char m.val) = b64uChar m.val := by decide
    exact hfin ⟨n, h⟩
  · rw [b64Char_of_ge n (Nat.le_of_not_lt h), b64uChar_of_ge n (Nat.le_of_not_lt h)]
    rfl

theorem b64uChar_good (n : Nat) : goodB64u (b64uChar n) = true := by
  by_cases h : n < 64
  · have hfin : ∀ m : Fin 64, goodB64u (b64uChar m.val) = true := by decide
    exact hfin ⟨n, h⟩
  · rw [b64uChar_of_ge n (Nat.le_of_not_lt h)]
    rfl

theorem b64uChar_beq_eq_false (n : Nat) : (b64uChar n == '=') = false := by
  have h := b64uChar_good n
  unfold goodB64u at h
  cases hc : b64uChar n == '='
  · rfl
  · rw [hc] at h
    simp at h

theorem stripEqs_append_of_ne_nil (xs ys : List Char) (h : stripEqs ys ≠ []) :
    stripEqs (xs ++ ys) = xs ++ stripEqs ys := by
  unfold stripEqs at h ⊢
  rw [List.reverse_append, List.dropWhile_append]
  have h2 : (ys.reverse.dropWhile (fun c => c == '=')).isEmpty = false := by
    rcases e : ys.reverse.dropWhile (fun c => c == '=') with _ | ⟨a, t⟩
    · exact absurd (by rw [e]; rfl) h
    · rfl
  simp only [h2, Bool.false_eq_true, if_false]
  rw [List.reverse_append, List.reverse_reverse]

theorem base64UrlChars_ne_nil (b : Nat) (l : List Nat) : base64UrlChars (b :: l) ≠ [] := by
  rcases l with _ | ⟨b2, l2⟩
  · simp [base64UrlChars]
  · rcases l2 with _ | ⟨b3, l3⟩
    · simp [base64UrlChars]
    · simp [base64UrlChars]

theorem strip_replace_base64 (l : List Nat) :
    stripEqs ((base64Chars l).map replaceB64Char) = base64UrlChars l := by
  induction l using base64Chars.induct with
  | case1 => rfl
  | case2 b1 =>
    show stripEqs ([b64Char (b1 / 4), b64Char (b1 % 4 * 16), '=', '='].map replaceB64Char)
      = [b64uChar (b1 / 4), b64uChar (b1 % 4 * 16)]
    have re : replaceB64Char '=' = '=' := rfl
    simp only [List.map, replace_b64Char_eq, re]
    unfold stripEqs
    simp [List.dropWhile, b64uChar_beq_eq_false]
  | case3 b1 b2 =>
    show stripEqs ([b64Char (b1 / 4), b64Char (b1 % 4 * 16 + b2 / 16),
        b64Char (b2 % 16 * 4), '='].map replaceB64Char)
      = [b64uChar (b1 / 4), b64uChar (b1 % 4 * 16 + b2 / 16), b64uChar (b2 % 16 * 4)]
    have re : replaceB64Char '=' = '=' := rfl
    simp only [List.map, replace_b64Char_eq, re]
    unfold stripEqs
    simp [List.dropWhile, b64uChar_beq_eq_false]
  | case4 b1 b2 b3 rest ih =>
    rcases rest with _ | ⟨r1, rs⟩
    · show stripEqs ([b64Char (b1 / 4), b64Char (b1 % 4 * 16 + b2 / 16),
          b64Char (b2 % 16 * 4 + b3 / 64), b64Char (b3 % 64)].map replaceB64Char)
        = [b64uChar (b1 / 4), b64uChar (b1 % 4 * 16 + b2 / 16),
            b64uChar (b2 % 16 * 4 + b3 / 64), b64uChar (b3 % 64)]
      simp only [List.map, replace_b64Char_eq]
      unfold stripEqs
      simp [List.dropWhile, b64uChar_beq_eq_false]
    · have hstep : base64Chars (b1 :: b2 :: b3 :: r1 :: rs)
          = [b64Char (b1 / 4), b64Char (b1 % 4 * 16 + b2 / 16),
              b64Char (b2 % 16 * 4 + b3 / 64), b64Char (b3 % 64)]
            ++ base64Chars (r1 :: rs) := rfl
      rw [hstep, List.map_append]
      rw [stripEqs_append_of_ne_nil _ _ (by
        rw [ih]
        exact base64UrlChars_ne_nil r1 rs)]
      rw [ih]
      simp only [List.map, replace_b64Char_eq]
      rfl

theorem base64UrlChars_good (l : List Nat) : (base64UrlChars l).all goodB64u = true := by
  induction l using base64UrlChars.induct with
  | case1 => rfl
  | case2 b1 => simp [base64UrlChars, List.all, b64uChar_good]
  | case3 b1 b2 => simp [base64UrlChars, List.all, b64uChar_good]
  | case4 b1 b2 b3 rest ih => simp [base64UrlChars, List.all, b64uChar_good, ih]

/-- C8: for every verifier of length at least 43, the challenge
computation `sha256` (UTF-8 encode, SHA-256 digest, `base64UrlEncode`)
is a pure function whose value equals the direct
base64url-without-padding encoding of the SHA-256 digest of the UTF-8
bytes of the verifier (`challengeForSpec`), and its output contains no
`+`, `/` or `=` characters. -/
theorem c8_challenge (v : String) (h : 43 ≤ v.length) :
    sha256 v = challengeForSpec v ∧ noBadB64Chars (sha256 v) = true := by
  constructor
  · unfold sha256 challengeForSpec base64UrlEncode
    exact congrArg String.mk (strip_replace_base64 _)
  · unfold noBadB64Chars sha256 base64UrlEncode
    rw [show (String.mk (stripEqs ((base64Chars (sha256Bytes (utf8Bytes v))).map
        replaceB64Char))).data
      = stripEqs ((base64Chars (sha256Bytes (utf8Bytes v))).map replaceB64Char) from rfl]
    rw [strip_replace_base64]
    exact base64UrlChars_good _

/-- C8 (witness): the challenge theorem instantiated at a concrete
43-character verifier. -/
theorem c8_witness :
    43 ≤ pkceWitnessVerifier.length
    ∧ (sha256 pkceWitnessVerifier = challengeForSpec pkceWitnessVerifier
      ∧ noBadB64Chars (sha256 pkceWitnessVerifier) = true) :=
  ⟨by decide, c8_challenge pkceWitnessVerifier (by decide)⟩
